import Mathlib

/-!
Verification development for the giri dynamic-slicing tracing runtime
(src/runtime/Giri/Tracing.cpp).

The runtime keeps a handful of process-wide globals: an entry cache that is a
memory-mapped window of the trace file (`struct entryCache` with fields
`index`, `cache`, `fileOffset`, `fd`), a global `trace_index` counter, a
basic-block shadow stack (`BBStack` with `BBStackIndex`, capacity
`maxBBStack = 4096`) and a function-call shadow stack (`FNStack` with
`FNStackIndex`, capacity `maxFNStack = 4096`).  We embed all of this state in
one structure `TraceState` and translate each hook of Tracing.cpp into a pure
function on that state.

Modelling conventions:

* The mapped window is `MAP_SHARED`, so a store into `cache[i]` is a store
  into the trace file at byte offset `fileOffset + i*sizeof(Entry)`; `msync`
  and `munmap/mmap` in `flushCache` only affect durability and the location
  of the window, never the bytes already stored.  We therefore model the
  trace file directly as a map from record slots to entries
  (`file : Nat -> Option Entry`, `none` meaning the slot was never written by
  the runtime) and keep the file offset in record units
  (`fileOffsetRecs = fileOffset / sizeof(Entry)`); a rotation advances the
  offset by one window, i.e. by `entryCacheSize` records
  (`entryCacheSizeinBytes` bytes).

* `sizeof(Entry)` and hence the concrete capacity
  `entryCacheSize = entryCacheSizeinBytes / sizeof(Entry)` are determined by
  `Giri/Runtime.h`, which is not part of the sources here; the cache
  operations therefore take the record capacity `C` as an explicit parameter.

* The stack indices are C `unsigned` (32-bit) values; increments and
  decrements are modelled modulo `2^32` where the source can wrap
  (`recordBB` decrements `BBStackIndex` unconditionally).  The stacks
  themselves are total maps `Nat -> frame`, which subsumes the fixed C
  arrays (all in-bounds accesses agree).

* `fprintf`/`printf` diagnostics have no effect on the traced state and are
  not modelled.  `abort()` is modelled by the result type `HookResult`: a
  hook that reaches an `abort()` call returns `HookResult.aborted s` with
  the state visible at the abort; all other paths return `HookResult.ok`.
-/

namespace Giri

/-- Modelled from the spec: the trace record type `Entry` is defined in
`Giri/Runtime.h`, which is not among the sources; per spec section 3 an Entry
has a `kind` tag, a 32-bit `id`, a pointer-sized `address` and a `length`
field (the `length` field is repurposed to carry the matching call identifier
for basic-block-termination records).  The kind names are the enumerator
names used by Tracing.cpp. -/
inductive EntryType where
  | BBType
  | LDType
  | STType
  | CLType
  | RTType
  | ENType
  | INVType
  | PDType
deriving DecidableEq, Repr

open EntryType

/-- Modelled from the spec: one fixed-size binary trace record (spec section
3); the constructor calls `Entry(type, id)`, `Entry(type, id, p)` and
`Entry(type, id, p, length)` in Tracing.cpp fill the remaining fields with
zero. -/
structure Entry where
  kind : EntryType
  id : Nat
  address : Nat
  length : Nat
deriving DecidableEq, Repr

/-- One frame of the basic-block shadow stack `BBStack`: `(id, address)`. -/
structure BBFrame where
  id : Nat
  address : Nat
deriving DecidableEq, Repr

/-- One frame of the function-call shadow stack `FNStack`: `(id, fnAddress)`. -/
structure FNFrame where
  id : Nat
  fnAddress : Nat
deriving DecidableEq, Repr

/-- Capacity of the basic-block shadow stack (`maxBBStack` in Tracing.cpp). -/
def maxBBStack : Nat := 4096

/-- Capacity of the function-call shadow stack (`maxFNStack` in Tracing.cpp). -/
def maxFNStack : Nat := 4096

/-- Byte size of one mapped window of the trace file
(`entryCacheSizeinBytes`, 256 MiB). -/
def entryCacheSizeinBytes : Nat := 256 * 1024 * 1024

/-- Record capacity of one window (`entryCacheSize` in Tracing.cpp), as a
function of `sizeof(Entry)` (defined in the absent `Giri/Runtime.h`). -/
def entryCacheSize (entrySize : Nat) : Nat := entryCacheSizeinBytes / entrySize

/-- Modulus of the C `unsigned` type (32 bits). -/
def U32 : Nat := 4294967296

/-- The complete global state of the tracing runtime: the entry cache
(`index`, `fileOffsetRecs` and the backing trace `file`), the global
`trace_index`, both shadow stacks with their indices, and the
`handlerThreadID` used by the gating predicate. -/
structure TraceState where
  trace_index : Nat
  index : Nat
  fileOffsetRecs : Nat
  file : Nat → Option Entry
  BBStackIndex : Nat
  BBStack : Nat → BBFrame
  FNStackIndex : Nat
  FNStack : Nat → FNFrame
  handlerThreadID : Nat

/-- Result of one hook invocation: `aborted s` means the hook reached an
`abort()` call with `s` the runtime state at that moment (relevant because
`recordStartBB` flushes the trace before aborting on the special block id). -/
inductive HookResult where
  | ok (s : TraceState)
  | aborted (s : TraceState)

/-- State carried by a hook result (for an abort: the state at the abort). -/
def HookResult.state : HookResult → TraceState
  | .ok s => s
  | .aborted s => s

/-- Whether the hook invocation reached an `abort()` call. -/
def HookResult.isAborted : HookResult → Bool
  | .ok _ => false
  | .aborted _ => true

/-- Translation of `checkForNonHandlerThread`: the live code is
`return false;` (record for all threads); the MySQL-only comparison of
`pthread_self()` against `handlerThreadID` is compiled out (`#if 0`).  The
two arguments stand for the global `handlerThreadID` and the calling
thread's id, which the disabled variant would consult. -/
def checkForNonHandlerThread (handlerThreadID selfThreadID : Nat) : Bool :=
  false

/-- Translation of `entryCache::flushCache` (a rotation): `msync` and the
`munmap`/extend/`mmap` sequence move the mapped window without changing any
byte already stored through the old mapping, so on the model they are
identity; the file offset advances by one window (`entryCacheSizeinBytes`
bytes = `C` records) and the cursor resets to 0. -/
def flushCache (C : Nat) (s : TraceState) : TraceState :=
  { s with fileOffsetRecs := s.fileOffsetRecs + C, index := 0 }

/-- Translation of `addToEntryCache`: if the cursor equals the capacity,
first rotate via `flushEntryCache` (= `entryCache.flushCache`); then store
the entry at the cursor (a store through the mapping, i.e. into file slot
`fileOffsetRecs + index`), and increment both the cursor and the global
`trace_index`. -/
def addToEntryCache (C : Nat) (s : TraceState) (e : Entry) : TraceState :=
  let s0 := if s.index = C then flushCache C s else s
  { s0 with
    file := fun n => if n = s0.fileOffsetRecs + s0.index then some e else s0.file n,
    index := s0.index + 1,
    trace_index := s0.trace_index + 1 }

/-- File slot that the next `addToEntryCache` will store to. -/
def nextSlot (s : TraceState) : Nat := s.fileOffsetRecs + s.index

/-- Folding `addToEntryCache` over a list of entries. -/
def appendAll (C : Nat) (s : TraceState) (es : List Entry) : TraceState :=
  es.foldl (addToEntryCache C) s

/-- The `while (BBStackIndex > 0)` drain loop of `closeCacheFile`, with the
loop count (the initial `BBStackIndex`) as fuel: each iteration decrements
`BBStackIndex`, reads the frame it now points past, and appends a
`Entry(BBType, bbid, fp)` record for it. -/
def drainBBStack (C : Nat) : Nat → TraceState → TraceState
  | 0, s => s
  | n + 1, s =>
    let frame := s.BBStack n
    drainBBStack C n
      (addToEntryCache C { s with BBStackIndex := n }
        (Entry.mk BBType frame.id frame.address 0))

/-- Translation of `closeCacheFile`: drain the basic-block stack into
synthetic termination records, append the `Entry(ENType, 0)` end marker, and
flush the cache. -/
def closeCacheFile (C : Nat) (s : TraceState) : TraceState :=
  flushCache C
    (addToEntryCache C (drainBBStack C s.BBStackIndex s) (Entry.mk ENType 0 0 0))

/-- Translation of `recordStartBB`: gate on `checkForNonHandlerThread`;
abort when the basic-block stack is full; otherwise push `(id, fp)` at
`BBStackIndex` and increment the index; finally, for the special clang
workaround id 190531, force `closeCacheFile()` and abort.  The
`fprintf(stdout, ...)` for ids 190525..190532 has no state effect. -/
def recordStartBB (C : Nat) (s : TraceState) (tid id fp : Nat) : HookResult :=
  if checkForNonHandlerThread s.handlerThreadID tid then .ok s
  else if s.BBStackIndex = maxBBStack then .aborted s
  else
    let s1 : TraceState :=
      { s with
        BBStack := fun n => if n = s.BBStackIndex then BBFrame.mk id fp else s.BBStack n,
        BBStackIndex := (s.BBStackIndex + 1) % U32 }
    if id = 190531 then .aborted (closeCacheFile C s1) else .ok s1

/-- Translation of `recordBB`: gate; compute the `callID` for the record
(popping the function-call stack only when this is the last basic block, the
stack is non-empty, and the top frame's `fnAddress` matches `fp`; the
sentinel `~0` when the stack is empty); append `Entry(BBType, id, fp,
callID)`; finally decrement `BBStackIndex` unconditionally (a C `unsigned`
decrement, hence modulo `2^32`). -/
def recordBB (C : Nat) (s : TraceState) (tid id fp lastBB : Nat) : HookResult :=
  if checkForNonHandlerThread s.handlerThreadID tid then .ok s
  else
    let p : TraceState × Nat :=
      if lastBB ≠ 0 then
        if 0 < s.FNStackIndex then
          if (s.FNStack (s.FNStackIndex - 1)).fnAddress ≠ fp then
            (s, 0)
          else
            ({ s with FNStackIndex := s.FNStackIndex - 1 },
             (s.FNStack (s.FNStackIndex - 1)).id)
        else (s, U32 - 1)
      else (s, 0)
    let s2 := addToEntryCache C p.1 (Entry.mk BBType id fp p.2)
    .ok { s2 with BBStackIndex := (s2.BBStackIndex + (U32 - 1)) % U32 }

/-- Translation of `recordCall`: gate; append `Entry(CLType, id, fp)`; then,
if the function-call stack is full, log and return without pushing (the
`abort()` there is commented out in the source); otherwise push `(id, fp)`
and increment `FNStackIndex`. -/
def recordCall (C : Nat) (s : TraceState) (tid id fp : Nat) : HookResult :=
  if checkForNonHandlerThread s.handlerThreadID tid then .ok s
  else
    let s1 := addToEntryCache C s (Entry.mk CLType id fp 0)
    if s1.FNStackIndex = maxFNStack then .ok s1
    else
      .ok { s1 with
        FNStack := fun n => if n = s1.FNStackIndex then FNFrame.mk id fp else s1.FNStack n,
        FNStackIndex := (s1.FNStackIndex + 1) % U32 }

/-- Translation of `recordLoad`: gate; append `Entry(LDType, id, p, length)`. -/
def recordLoad (C : Nat) (s : TraceState) (tid id p length : Nat) : TraceState :=
  if checkForNonHandlerThread s.handlerThreadID tid then s
  else addToEntryCache C s (Entry.mk LDType id p length)

/-- Running a sequence of `recordStartBB` invocations (pairs `(id, fp)`),
stopping at the first abort. -/
def runStartBBs (C : Nat) (tid : Nat) : TraceState → List (Nat × Nat) → HookResult
  | s, [] => .ok s
  | s, c :: rest =>
    match recordStartBB C s tid c.1 c.2 with
    | .ok s1 => runStartBBs C tid s1 rest
    | .aborted s1 => .aborted s1

/-- The runtime state right after `recordInit`/`entryCache::openFD`: cursor
and offset 0, a fresh (truncated) trace file, empty shadow stacks, counter 0. -/
def initState : TraceState :=
  { trace_index := 0
    index := 0
    fileOffsetRecs := 0
    file := fun _ => none
    BBStackIndex := 0
    BBStack := fun _ => BBFrame.mk 0 0
    FNStackIndex := 0
    FNStack := fun _ => FNFrame.mk 0 0
    handlerThreadID := 0 }

/-! Basic lemmas about the entry cache.  Whether or not an append triggers a
rotation, the store lands in file slot `nextSlot s = fileOffsetRecs + index`,
and `nextSlot` advances by exactly one per append: a rotation moves the
offset forward by exactly the cursor it resets. -/

theorem add_file_eq (C : Nat) (s : TraceState) (e : Entry) :
    (addToEntryCache C s e).file =
      fun n => if n = nextSlot s then some e else s.file n := by
  by_cases h : s.index = C
  · simp [addToEntryCache, flushCache, nextSlot, h]
  · simp [addToEntryCache, nextSlot, h]

theorem add_nextSlot (C : Nat) (s : TraceState) (e : Entry) :
    nextSlot (addToEntryCache C s e) = nextSlot s + 1 := by
  by_cases h : s.index = C
  · simp [addToEntryCache, flushCache, nextSlot, h]
  · simp [addToEntryCache, nextSlot, h]
    omega

theorem add_trace_index (C : Nat) (s : TraceState) (e : Entry) :
    (addToEntryCache C s e).trace_index = s.trace_index + 1 := by
  by_cases h : s.index = C
  · simp [addToEntryCache, flushCache, h]
  · simp [addToEntryCache, h]

theorem add_BBStackIndex (C : Nat) (s : TraceState) (e : Entry) :
    (addToEntryCache C s e).BBStackIndex = s.BBStackIndex := by
  by_cases h : s.index = C
  · simp [addToEntryCache, flushCache, h]
  · simp [addToEntryCache, h]

theorem add_FNStackIndex (C : Nat) (s : TraceState) (e : Entry) :
    (addToEntryCache C s e).FNStackIndex = s.FNStackIndex := by
  by_cases h : s.index = C
  · simp [addToEntryCache, flushCache, h]
  · simp [addToEntryCache, h]

theorem add_FNStack (C : Nat) (s : TraceState) (e : Entry) :
    (addToEntryCache C s e).FNStack = s.FNStack := by
  by_cases h : s.index = C
  · simp [addToEntryCache, flushCache, h]
  · simp [addToEntryCache, h]

theorem add_BBStack (C : Nat) (s : TraceState) (e : Entry) :
    (addToEntryCache C s e).BBStack = s.BBStack := by
  by_cases h : s.index = C
  · simp [addToEntryCache, flushCache, h]
  · simp [addToEntryCache, h]

/-- Main induction for the round-trip property: appending `es` stores
`es.get i` in slot `nextSlot s + i` and touches no slot outside
`[nextSlot s, nextSlot s + es.length)`. -/
theorem appendAll_file (C : Nat) (es : List Entry) (s : TraceState) :
    (∀ i : Nat, ∀ h : i < es.length,
        (appendAll C s es).file (nextSlot s + i) = some (es.get ⟨i, h⟩)) ∧
      (∀ n : Nat, (n < nextSlot s ∨ nextSlot s + es.length ≤ n) →
        (appendAll C s es).file n = s.file n) := by
  induction es generalizing s with
  | nil =>
    constructor
    · intro i h
      exact absurd h (by simp)
    · intro n _
      simp [appendAll]
  | cons e rest ih =>
    have hApp : appendAll C s (e :: rest) = appendAll C (addToEntryCache C s e) rest := by
      simp [appendAll]
    have hSlot := add_nextSlot C s e
    constructor
    · intro i h
      match i with
      | 0 =>
        have hpres := (ih (addToEntryCache C s e)).2 (nextSlot s)
          (Or.inl (by omega))
        rw [hApp, Nat.add_zero, hpres, add_file_eq]
        simp
      | Nat.succ j =>
        have hj : j < rest.length := by
          simpa [Nat.succ_lt_succ_iff] using h
        have := (ih (addToEntryCache C s e)).1 j hj
        rw [hApp]
        rw [hSlot] at this
        have harith : nextSlot s + (j + 1) = nextSlot s + 1 + j := by omega
        rw [harith, this]
        rfl
    · intro n hn
      simp only [List.length_cons] at hn
      rw [hApp, (ih (addToEntryCache C s e)).2 n (by rw [hSlot]; omega),
        add_file_eq]
      have : n ≠ nextSlot s := by omega
      simp [this]

/-- C1: rotation never loses, duplicates or reorders records.  For every
capacity `C` and every sequence `es` of entries passed to
`addToEntryCache` starting from the initial state (this includes sequences
longer than `C`, which trigger one rotation per `C` appends), the trace file
holds exactly the sequence `es`: slot `i` holds `es.get i` for `i <
es.length`, and every slot at or beyond `es.length` was never written — in
particular the record written right after a rotation sits in the slot
immediately after the last record written before it. -/
theorem C1_rotation_preserves_record_sequence (C : Nat) (es : List Entry) :
    (∀ i : Nat, ∀ h : i < es.length,
        (appendAll C initState es).file i = some (es.get ⟨i, h⟩)) ∧
      (∀ n : Nat, es.length ≤ n → (appendAll C initState es).file n = none) := by
  have h := appendAll_file C es initState
  have h0 : nextSlot initState = 0 := rfl
  constructor
  · intro i hi
    have := h.1 i hi
    rwa [h0, Nat.zero_add] at this
  · intro n hn
    have := h.2 n (by rw [h0]; omega)
    rw [this]
    rfl

/-- Concrete entries for witnesses. -/
def entA : Entry := Entry.mk LDType 1 4096 4

/-- Concrete entry for witnesses. -/
def entB : Entry := Entry.mk STType 2 8192 8

/-- Concrete entry for witnesses. -/
def entC : Entry := Entry.mk BBType 3 12288 0

/-- Witness for C1 at capacity 2 with three appends, so that the third
append triggers a capacity rotation: the record after the rotation lands in
slot 2, right after the pre-rotation records, and slot 3 stays unwritten. -/
theorem C1_rotation_preserves_record_sequence_witness :
    (appendAll 2 initState [entA, entB, entC]).file 2 = some entC ∧
      (appendAll 2 initState [entA, entB, entC]).file 3 = none :=
  ⟨(C1_rotation_preserves_record_sequence 2 [entA, entB, entC]).1 2 (by decide),
   (C1_rotation_preserves_record_sequence 2 [entA, entB, entC]).2 3 (by decide)⟩

/-- C2: the entry cache invariant `0 ≤ index ≤ C` (the lower bound holds by
the type `Nat`) is preserved by an append, which rotates exactly when the
cursor equals the capacity: in that case the file offset advances by one
window (`C` records, i.e. `entryCacheSizeinBytes` bytes), the cursor resets
and the entry goes to the start of the new window, ending at cursor 1;
otherwise the offset is unchanged, the entry goes to the cursor's slot and
the cursor advances by one.  A plain rotation (`flushCache`) also keeps the
invariant, resetting the cursor to 0. -/
theorem C2_cache_index_invariant (C : Nat) (s : TraceState) (e : Entry)
    (hC : 0 < C) (h : s.index ≤ C) :
    (addToEntryCache C s e).index ≤ C ∧
      (s.index = C →
        (addToEntryCache C s e).fileOffsetRecs = s.fileOffsetRecs + C ∧
          (addToEntryCache C s e).index = 1 ∧
          (addToEntryCache C s e).file (s.fileOffsetRecs + C) = some e) ∧
      (s.index ≠ C →
        (addToEntryCache C s e).fileOffsetRecs = s.fileOffsetRecs ∧
          (addToEntryCache C s e).index = s.index + 1 ∧
          (addToEntryCache C s e).file (s.fileOffsetRecs + s.index) = some e) ∧
      (flushCache C s).index = 0 := by
  by_cases hiC : s.index = C
  · refine ⟨?_, fun _ => ⟨?_, ?_, ?_⟩, fun hne => absurd hiC hne, ?_⟩ <;>
      simp [addToEntryCache, flushCache, hiC] <;> omega
  · refine ⟨?_, fun heq => absurd heq hiC, fun _ => ⟨?_, ?_, ?_⟩, ?_⟩ <;>
      simp [addToEntryCache, flushCache, hiC] <;> omega

/-- Witness for C2 at capacity 2 with a full cursor. -/
theorem C2_cache_index_invariant_witness :
    (addToEntryCache 2 { initState with index := 2 } entA).index ≤ 2 ∧
      (addToEntryCache 2 { initState with index := 2 } entA).fileOffsetRecs = 0 + 2 ∧
        (addToEntryCache 2 { initState with index := 2 } entA).index = 1 ∧
        (addToEntryCache 2 { initState with index := 2 } entA).file (0 + 2) = some entA :=
  ⟨(C2_cache_index_invariant 2 { initState with index := 2 } entA
      (by decide) (by decide)).1,
   (C2_cache_index_invariant 2 { initState with index := 2 } entA
      (by decide) (by decide)).2.1 rfl⟩

/-- C3: an end-of-block hook with the last-block flag set while the
function-call stack is empty emits a basic-block-termination record whose
call-id field (the fourth Entry field) holds the sentinel `~0` =
`2^32 - 1 = 4294967295`, reaches no abort, and leaves the call stack empty. -/
theorem C3_empty_stack_sentinel_callid (C : Nat) (s : TraceState)
    (tid id fp lastBB : Nat) (hfn : s.FNStackIndex = 0) (hlast : lastBB ≠ 0) :
    (recordBB C s tid id fp lastBB).isAborted = false ∧
      (recordBB C s tid id fp lastBB).state.file (nextSlot s) =
        some (Entry.mk EntryType.BBType id fp 4294967295) ∧
      (recordBB C s tid id fp lastBB).state.FNStackIndex = 0 := by
  simp [recordBB, checkForNonHandlerThread, hfn, hlast, U32,
    HookResult.state, HookResult.isAborted, add_file_eq, add_FNStackIndex]

/-- Witness for C3 on the initial state. -/
theorem C3_empty_stack_sentinel_callid_witness :
    (recordBB 2 initState 0 5 4096 1).isAborted = false ∧
      (recordBB 2 initState 0 5 4096 1).state.file (nextSlot initState) =
        some (Entry.mk EntryType.BBType 5 4096 4294967295) ∧
      (recordBB 2 initState 0 5 4096 1).state.FNStackIndex = 0 :=
  C3_empty_stack_sentinel_callid 2 initState 0 5 4096 1 rfl (by decide)

/-- C4: an end-of-block hook with the last-block flag set while the
function-call stack is non-empty and its top frame's recorded function
address differs from `fp` reaches no abort (the source only logs a
diagnostic on `stderr`), leaves the function-call stack completely unchanged
(same index, same frames, hence same top entry), and still emits a
basic-block-termination record for the block (with call-id 0). -/
theorem C4_mismatch_leaves_call_stack (C : Nat) (s : TraceState)
    (tid id fp lastBB : Nat) (hlast : lastBB ≠ 0)
    (hpos : 0 < s.FNStackIndex)
    (hne : (s.FNStack (s.FNStackIndex - 1)).fnAddress ≠ fp) :
    (recordBB C s tid id fp lastBB).isAborted = false ∧
      (recordBB C s tid id fp lastBB).state.FNStackIndex = s.FNStackIndex ∧
      (recordBB C s tid id fp lastBB).state.FNStack = s.FNStack ∧
      (recordBB C s tid id fp lastBB).state.file (nextSlot s) =
        some (Entry.mk EntryType.BBType id fp 0) := by
  simp [recordBB, checkForNonHandlerThread, hlast, hpos, hne,
    HookResult.state, HookResult.isAborted, add_file_eq, add_FNStackIndex,
    add_FNStack]

/-- Concrete state for the C4 witness: one call frame for function address
4096 on the stack, and the block exits tagged with function address 8192. -/
def mismatchState : TraceState :=
  { initState with
    FNStackIndex := 1
    FNStack := fun _ => FNFrame.mk 7 4096 }

/-- Witness for C4: call frame for function 4096 on top, block-exit tagged
with function 8192. -/
theorem C4_mismatch_leaves_call_stack_witness :
    (recordBB 2 mismatchState 0 5 8192 1).isAborted = false ∧
      (recordBB 2 mismatchState 0 5 8192 1).state.FNStackIndex =
        mismatchState.FNStackIndex ∧
      (recordBB 2 mismatchState 0 5 8192 1).state.FNStack =
        mismatchState.FNStack ∧
      (recordBB 2 mismatchState 0 5 8192 1).state.file (nextSlot mismatchState) =
        some (Entry.mk EntryType.BBType 5 8192 0) :=
  C4_mismatch_leaves_call_stack 2 mismatchState 0 5 8192 1
    (by decide) (by decide) (by decide)

/-- C7: on every call hook the call-start record is appended before the
function-call stack is touched (the append in `recordCall` precedes the
overflow test and possible push); when the stack already holds `maxFNStack`
frames the push is dropped (the `abort()` is commented out in the source):
no abort is reached, the stack index stays at the maximum and the frames are
unchanged, and a subsequent hook invocation (here a `recordLoad`) still
appends its record normally. -/
theorem C7_call_stack_overflow_tolerated (C : Nat) (s : TraceState)
    (tid id fp : Nat) (h : s.FNStackIndex = maxFNStack) :
    (recordCall C s tid id fp).isAborted = false ∧
      (recordCall C s tid id fp).state.file (nextSlot s) =
        some (Entry.mk EntryType.CLType id fp 0) ∧
      (recordCall C s tid id fp).state.FNStackIndex = maxFNStack ∧
      (recordCall C s tid id fp).state.FNStack = s.FNStack ∧
      (∀ id2 p len,
        (recordLoad C (recordCall C s tid id fp).state tid id2 p len).trace_index =
          (recordCall C s tid id fp).state.trace_index + 1) := by
  simp [recordCall, checkForNonHandlerThread, add_FNStackIndex, h,
    HookResult.state, HookResult.isAborted, add_file_eq, add_FNStack,
    recordLoad, add_trace_index]

/-- Concrete state for the C7 witness: a full function-call stack. -/
def fullFNState : TraceState :=
  { initState with FNStackIndex := maxFNStack }

/-- Witness for C7 on a full function-call stack. -/
theorem C7_call_stack_overflow_tolerated_witness :
    (recordCall 2 fullFNState 0 9 4096).isAborted = false ∧
      (recordCall 2 fullFNState 0 9 4096).state.file (nextSlot fullFNState) =
        some (Entry.mk EntryType.CLType 9 4096 0) ∧
      (recordCall 2 fullFNState 0 9 4096).state.FNStackIndex = maxFNStack ∧
      (recordLoad 2 (recordCall 2 fullFNState 0 9 4096).state 0 11 8192 4).trace_index =
        (recordCall 2 fullFNState 0 9 4096).state.trace_index + 1 :=
  ⟨(C7_call_stack_overflow_tolerated 2 fullFNState 0 9 4096 rfl).1,
   (C7_call_stack_overflow_tolerated 2 fullFNState 0 9 4096 rfl).2.1,
   (C7_call_stack_overflow_tolerated 2 fullFNState 0 9 4096 rfl).2.2.1,
   (C7_call_stack_overflow_tolerated 2 fullFNState 0 9 4096 rfl).2.2.2.2 11 8192 4⟩

/-- C9: the thread-gating predicate `checkForNonHandlerThread` returns
`false` for every handler-thread identity and every calling thread (the
MySQL-only comparison is compiled out under `#if 0`), so the gated no-op
path of the recording hooks is never taken: every `recordLoad` invocation
appends its record unconditionally, for any calling thread. -/
theorem C9_gating_disabled :
    (∀ h t, checkForNonHandlerThread h t = false) ∧
      (∀ C : Nat, ∀ s : TraceState, ∀ tid id p len : Nat,
        (recordLoad C s tid id p len).trace_index = s.trace_index + 1 ∧
          (recordLoad C s tid id p len).file (nextSlot s) =
            some (Entry.mk EntryType.LDType id p len)) := by
  refine ⟨fun h t => rfl, fun C s tid id p len => ⟨?_, ?_⟩⟩
  · simp [recordLoad, checkForNonHandlerThread, add_trace_index]
  · simp [recordLoad, checkForNonHandlerThread, add_file_eq]

/-- The basic-block stack index after any non-gated `recordBB` invocation:
the source decrements the C `unsigned` `BBStackIndex` unconditionally at the
end of the hook, which is addition of `2^32 - 1` modulo `2^32`. -/
theorem recordBB_BBStackIndex (C : Nat) (s : TraceState)
    (tid id fp lastBB : Nat) :
    (recordBB C s tid id fp lastBB).state.BBStackIndex =
      (s.BBStackIndex + (U32 - 1)) % U32 := by
  by_cases h1 : lastBB ≠ 0 <;>
    by_cases h2 : 0 < s.FNStackIndex <;>
      by_cases h3 : (s.FNStack (s.FNStackIndex - 1)).fnAddress ≠ fp <;>
        simp [recordBB, checkForNonHandlerThread, h1, h2, h3,
          HookResult.state, add_BBStackIndex]

/-- C10: `recordBB` decrements `BBStackIndex` unconditionally, so invoked on
an empty basic-block stack the unsigned index wraps around to
`2^32 - 1 = 4294967295` (violating `BBStackIndex ≤ maxBBStack`), while under
the matching precondition (a prior unconsumed start-of-block, i.e.
`0 < BBStackIndex ≤ maxBBStack`) it just decrements by one and the invariant
is preserved. -/
theorem C10_bb_index_wraparound (C : Nat) (s : TraceState)
    (tid id fp lastBB : Nat) :
    (s.BBStackIndex = 0 →
        (recordBB C s tid id fp lastBB).state.BBStackIndex = 4294967295) ∧
      (0 < s.BBStackIndex → s.BBStackIndex ≤ maxBBStack →
        (recordBB C s tid id fp lastBB).state.BBStackIndex =
            s.BBStackIndex - 1 ∧
          (recordBB C s tid id fp lastBB).state.BBStackIndex ≤ maxBBStack) := by
  have h := recordBB_BBStackIndex C s tid id fp lastBB
  constructor
  · intro h0
    rw [h, h0]
    simp [U32]
  · intro hpos hle
    simp only [maxBBStack] at hle ⊢
    rw [h]
    simp only [U32]
    omega

/-- Concrete state for the C10 witness: one frame on the basic-block stack. -/
def oneBBState : TraceState :=
  { initState with BBStackIndex := 1 }

/-- Witness for C10: the wraparound on the empty stack and the ordinary
decrement on a one-frame stack. -/
theorem C10_bb_index_wraparound_witness :
    (recordBB 2 initState 0 5 0 0).state.BBStackIndex = 4294967295 ∧
      (recordBB 2 oneBBState 0 5 0 0).state.BBStackIndex = 1 - 1 :=
  ⟨(C10_bb_index_wraparound 2 initState 0 5 0 0).1 rfl,
   ((C10_bb_index_wraparound 2 oneBBState 0 5 0 0).2 (by decide) (by decide)).1⟩

/-- Counterexample to C5 as stated: `recordStartBB` with the special-cased
clang workaround id 190531 does append entries even though the block-stack
overflow abort is not hit — the hook pushes the frame and then forces
`closeCacheFile()`, which appends a termination record for the just-pushed
block and the end marker (two records) before aborting. -/
theorem C5_cex_special_id_appends :
    initState.BBStackIndex ≠ maxBBStack ∧
      (recordStartBB 2 initState 0 190531 0).state.trace_index = 2 ∧
      (recordStartBB 2 initState 0 190531 0).state.file 0 =
        some (Entry.mk EntryType.BBType 190531 0 0) := by
  refine ⟨by decide, by decide, by decide⟩

/-- C5 (amended): for every id other than the special-cased clang workaround
id 190531, a `recordStartBB` invocation that does not hit the block-stack
overflow abort reaches no abort, appends no Entry record (the trace file,
the cache cursor and the trace index are all unchanged), and only pushes the
frame `(id, fp)` onto the basic-block stack, leaving all other frames
alone. -/
theorem C5_start_block_appends_nothing (C : Nat) (s : TraceState)
    (tid id fp : Nat) (hid : id ≠ 190531)
    (hov : s.BBStackIndex ≠ maxBBStack) :
    (recordStartBB C s tid id fp).isAborted = false ∧
      (recordStartBB C s tid id fp).state.file = s.file ∧
      (recordStartBB C s tid id fp).state.index = s.index ∧
      (recordStartBB C s tid id fp).state.trace_index = s.trace_index ∧
      (recordStartBB C s tid id fp).state.BBStackIndex =
        (s.BBStackIndex + 1) % U32 ∧
      (recordStartBB C s tid id fp).state.BBStack s.BBStackIndex =
        BBFrame.mk id fp ∧
      (∀ n, n ≠ s.BBStackIndex →
        (recordStartBB C s tid id fp).state.BBStack n = s.BBStack n) := by
  refine ⟨?_, ?_, ?_, ?_, ?_, ?_, ?_⟩ <;>
    simp [recordStartBB, checkForNonHandlerThread, hid, hov,
      HookResult.state, HookResult.isAborted]
  intro n hn
  simp [hn]

/-- Witness for the amended C5 on the initial state. -/
theorem C5_start_block_appends_nothing_witness :
    (recordStartBB 2 initState 0 5 4096).isAborted = false ∧
      (recordStartBB 2 initState 0 5 4096).state.file = initState.file ∧
      (recordStartBB 2 initState 0 5 4096).state.index = initState.index ∧
      (recordStartBB 2 initState 0 5 4096).state.trace_index =
        initState.trace_index ∧
      (recordStartBB 2 initState 0 5 4096).state.BBStackIndex = 1 % U32 ∧
      (recordStartBB 2 initState 0 5 4096).state.BBStack 0 =
        BBFrame.mk 5 4096 :=
  ⟨(C5_start_block_appends_nothing 2 initState 0 5 4096 (by decide) (by decide)).1,
   (C5_start_block_appends_nothing 2 initState 0 5 4096 (by decide) (by decide)).2.1,
   (C5_start_block_appends_nothing 2 initState 0 5 4096 (by decide) (by decide)).2.2.1,
   (C5_start_block_appends_nothing 2 initState 0 5 4096 (by decide) (by decide)).2.2.2.1,
   (C5_start_block_appends_nothing 2 initState 0 5 4096 (by decide) (by decide)).2.2.2.2.1,
   (C5_start_block_appends_nothing 2 initState 0 5 4096 (by decide) (by decide)).2.2.2.2.2.1⟩

/-- Shape of a successful `recordStartBB` invocation (id not the clang
workaround id, stack not full): the pushed state. -/
theorem recordStartBB_ok (C : Nat) (s : TraceState) (tid id fp : Nat)
    (hid : id ≠ 190531) (hov : s.BBStackIndex ≠ maxBBStack) :
    recordStartBB C s tid id fp =
      HookResult.ok
        { s with
          BBStack := fun n =>
            if n = s.BBStackIndex then BBFrame.mk id fp else s.BBStack n,
          BBStackIndex := (s.BBStackIndex + 1) % U32 } := by
  simp [recordStartBB, checkForNonHandlerThread, hid, hov]

/-- Running start-of-block hooks that stay strictly below the stack bound
succeeds and grows the stack index by the number of invocations. -/
theorem runStartBBs_ok (C tid : Nat) (calls : List (Nat × Nat)) :
    ∀ s : TraceState, (∀ c ∈ calls, c.1 ≠ 190531) →
      s.BBStackIndex + calls.length ≤ maxBBStack →
      ∃ s1 : TraceState, runStartBBs C tid s calls = HookResult.ok s1 ∧
        s1.BBStackIndex = s.BBStackIndex + calls.length := by
  induction calls with
  | nil =>
    intro s _ _
    exact ⟨s, rfl, by simp⟩
  | cons c rest ih =>
    intro s hids hlen
    simp only [List.length_cons] at hlen
    have hid : c.1 ≠ 190531 := hids c (List.mem_cons_self c rest)
    have hov : s.BBStackIndex ≠ maxBBStack := by
      simp only [maxBBStack] at hlen ⊢
      omega
    have hmod : (s.BBStackIndex + 1) % U32 = s.BBStackIndex + 1 := by
      simp only [maxBBStack] at hlen
      simp only [U32]
      omega
    obtain ⟨s1, heq, hbb⟩ := ih
      { s with
        BBStack := fun n =>
          if n = s.BBStackIndex then BBFrame.mk c.1 c.2 else s.BBStack n,
        BBStackIndex := (s.BBStackIndex + 1) % U32 }
      (fun d hd => hids d (List.mem_cons_of_mem c hd))
      (by
        show (s.BBStackIndex + 1) % U32 + rest.length ≤ maxBBStack
        rw [hmod]
        simp only [maxBBStack] at hlen ⊢
        omega)
    refine ⟨s1, ?_, ?_⟩
    · simp only [runStartBBs, recordStartBB_ok C s tid c.1 c.2 hid hov]
      exact heq
    · rw [hbb]
      show (s.BBStackIndex + 1) % U32 + rest.length = s.BBStackIndex + (rest.length + 1)
      rw [hmod]
      omega

/-- A start-of-block hook on a full basic-block stack aborts at once and so
does any run beginning with it. -/
theorem runStartBBs_full_aborts (C tid : Nat) (s : TraceState)
    (c : Nat × Nat) (rest : List (Nat × Nat))
    (h : s.BBStackIndex = maxBBStack) :
    (runStartBBs C tid s (c :: rest)).isAborted = true := by
  simp [runStartBBs, recordStartBB, checkForNonHandlerThread, h,
    HookResult.isAborted]

/-- Splitting a run of start-of-block hooks at a list append. -/
theorem runStartBBs_append (C tid : Nat) (l1 l2 : List (Nat × Nat)) :
    ∀ s : TraceState,
      runStartBBs C tid s (l1 ++ l2) =
        match runStartBBs C tid s l1 with
        | HookResult.ok s1 => runStartBBs C tid s1 l2
        | HookResult.aborted s1 => HookResult.aborted s1 := by
  induction l1 with
  | nil => intro s; rfl
  | cons c rest ih =>
    intro s
    simp only [List.cons_append, runStartBBs]
    cases recordStartBB C s tid c.1 c.2 with
    | ok s1 => exact ih s1
    | aborted s1 => rfl

/-- Counterexample to C6 as stated: with the special-cased clang workaround
id 190531, a sequence of `maxBBStack + 1` start-of-block invocations aborts
already on its first invocation (which is among the first `maxBBStack`
ones), so the first `maxBBStack` invocations do not all succeed. -/
theorem C6_cex_special_id_aborts_early :
    (((190531 : Nat), (0 : Nat)) ::
        List.replicate maxBBStack ((1 : Nat), (0 : Nat))).length =
      maxBBStack + 1 ∧
      (runStartBBs 2 0 initState
        ((((190531 : Nat), (0 : Nat)) ::
          List.replicate maxBBStack ((1 : Nat), (0 : Nat))).take 1)).isAborted =
        true := by
  constructor
  · simp
  · have htake :
        ((((190531 : Nat), (0 : Nat)) ::
          List.replicate maxBBStack ((1 : Nat), (0 : Nat))).take 1) =
          [((190531 : Nat), (0 : Nat))] := by
      simp
    rw [htake]
    decide

/-- C6 (amended): starting from the empty basic-block stack, every sequence
of exactly `maxBBStack + 1` consecutive start-of-block invocations in which
no id equals the special-cased clang workaround id 190531 succeeds without
aborting on each of its first `maxBBStack` invocations and deterministically
hits the fatal abort on the `(maxBBStack + 1)`-th. -/
theorem C6_block_stack_overflow_fatal (C tid : Nat)
    (calls : List (Nat × Nat)) (hlen : calls.length = maxBBStack + 1)
    (hids : ∀ c ∈ calls, c.1 ≠ 190531) :
    (runStartBBs C tid initState (calls.take maxBBStack)).isAborted = false ∧
      (runStartBBs C tid initState calls).isAborted = true := by
  have htake : (calls.take maxBBStack).length = maxBBStack := by
    rw [List.length_take, hlen]
    omega
  have hidtake : ∀ c ∈ calls.take maxBBStack, c.1 ≠ 190531 :=
    fun c hc => hids c (List.take_subset _ _ hc)
  obtain ⟨s1, heq, hbb⟩ := runStartBBs_ok C tid (calls.take maxBBStack)
    initState hidtake
    (by rw [htake]; show 0 + maxBBStack ≤ maxBBStack; omega)
  constructor
  · rw [heq]
    rfl
  · have hsplit : calls = calls.take maxBBStack ++ calls.drop maxBBStack :=
      (List.take_append_drop maxBBStack calls).symm
    have hdroplen : (calls.drop maxBBStack).length = 1 := by
      rw [List.length_drop, hlen]
      omega
    rw [hsplit, runStartBBs_append, heq]
    cases hdrop : calls.drop maxBBStack with
    | nil => simp [hdrop] at hdroplen
    | cons c rest =>
      exact runStartBBs_full_aborts C tid s1 c rest
        (by rw [hbb, htake]; show 0 + maxBBStack = maxBBStack; omega)

/-- Witness for the amended C6: 4097 pushes of block id 1. -/
theorem C6_block_stack_overflow_fatal_witness :
    (runStartBBs 2 0 initState
        ((List.replicate (maxBBStack + 1) ((1 : Nat), (0 : Nat))).take
          maxBBStack)).isAborted = false ∧
      (runStartBBs 2 0 initState
        (List.replicate (maxBBStack + 1) ((1 : Nat), (0 : Nat)))).isAborted =
        true :=
  C6_block_stack_overflow_fatal 2 0
    (List.replicate (maxBBStack + 1) ((1 : Nat), (0 : Nat)))
    (by simp)
    (by
      intro c hc
      rcases List.eq_of_mem_replicate hc with rfl
      decide)

/-- The drain loop of `closeCacheFile` leaves the basic-block stack index at
0 whenever it runs at least one iteration. -/
theorem drain_BBStackIndex (C : Nat) :
    ∀ n : Nat, ∀ s : TraceState,
      (drainBBStack C n s).BBStackIndex = if n = 0 then s.BBStackIndex else 0 := by
  intro n
  induction n with
  | zero => intro s; rfl
  | succ m ih =>
    intro s
    rw [drainBBStack, ih]
    by_cases hm : m = 0 <;> simp [hm, add_BBStackIndex]

/-- After `closeCacheFile` the basic-block stack is empty. -/
theorem close_BBStackIndex (C : Nat) (s : TraceState) :
    (closeCacheFile C s).BBStackIndex = 0 := by
  simp only [closeCacheFile, flushCache]
  rw [add_BBStackIndex, drain_BBStackIndex]
  by_cases h : s.BBStackIndex = 0 <;> simp [h]

/-- After `closeCacheFile` the cache cursor is 0 (the final flush resets it). -/
theorem close_index (C : Nat) (s : TraceState) :
    (closeCacheFile C s).index = 0 := by
  simp [closeCacheFile, flushCache]

/-- Effect of `closeCacheFile` on a state whose basic-block stack is already
empty: the drain loop runs zero iterations, exactly one end-marker record is
appended (at the next write slot), and no other file slot changes. -/
theorem close_of_drained (C : Nat) (s : TraceState)
    (hb : s.BBStackIndex = 0) :
    (closeCacheFile C s).trace_index = s.trace_index + 1 ∧
      (closeCacheFile C s).file (nextSlot s) =
        some (Entry.mk EntryType.ENType 0 0 0) ∧
      (∀ n, n ≠ nextSlot s → (closeCacheFile C s).file n = s.file n) ∧
      (closeCacheFile C s).BBStackIndex = 0 := by
  have hdrain : drainBBStack C s.BBStackIndex s = s := by rw [hb]; rfl
  simp only [closeCacheFile, hdrain, flushCache]
  refine ⟨?_, ?_, ?_, ?_⟩
  · exact add_trace_index C s (Entry.mk EntryType.ENType 0 0 0)
  · rw [add_file_eq]
    simp
  · intro n hn
    rw [add_file_eq]
    simp [hn]
  · rw [add_BBStackIndex, hb]

/-- Counterexample to C8 as stated: a second `closeCacheFile` does append an
additional record after the terminal end-marker written by the first one —
on the initial state, the first close writes the end marker into slot 0, and
the second close appends a second end marker into slot 2 (the start of the
next window), so the trace counter reaches 2. -/
theorem C8_cex_second_close_appends :
    (closeCacheFile 2 (closeCacheFile 2 initState)).trace_index = 2 ∧
      (closeCacheFile 2 initState).file 0 =
        some (Entry.mk EntryType.ENType 0 0 0) ∧
      (closeCacheFile 2 (closeCacheFile 2 initState)).file 2 =
        some (Entry.mk EntryType.ENType 0 0 0) := by
  refine ⟨by decide, by decide, by decide⟩

/-- C8 (amended): invoking `closeCacheFile` twice runs the drain logic at
most once — the second invocation finds the basic-block stack empty, drains
nothing, appends exactly one additional end-marker record (into the first
slot of the freshly rotated window) and rotates again; it modifies no file
slot other than that one, so every record written by the first invocation,
including its terminal end-marker, is left intact. -/
theorem C8_double_close_appends_one_marker (C : Nat) (s : TraceState) :
    (closeCacheFile C (closeCacheFile C s)).trace_index =
        (closeCacheFile C s).trace_index + 1 ∧
      (closeCacheFile C (closeCacheFile C s)).file
          ((closeCacheFile C s).fileOffsetRecs) =
        some (Entry.mk EntryType.ENType 0 0 0) ∧
      (∀ n, n ≠ (closeCacheFile C s).fileOffsetRecs →
        (closeCacheFile C (closeCacheFile C s)).file n =
          (closeCacheFile C s).file n) ∧
      (closeCacheFile C (closeCacheFile C s)).BBStackIndex = 0 := by
  have hslot : nextSlot (closeCacheFile C s) =
      (closeCacheFile C s).fileOffsetRecs := by
    simp [nextSlot, close_index]
  have h := close_of_drained C (closeCacheFile C s) (close_BBStackIndex C s)
  rw [hslot] at h
  exact h

/-- Witness for the amended C8 on the initial state: the second close adds
one record and leaves slot 0 (the first end marker) untouched. -/
theorem C8_double_close_appends_one_marker_witness :
    (closeCacheFile 2 (closeCacheFile 2 initState)).trace_index =
        (closeCacheFile 2 initState).trace_index + 1 ∧
      (closeCacheFile 2 (closeCacheFile 2 initState)).file 0 =
        (closeCacheFile 2 initState).file 0 :=
  ⟨(C8_double_close_appends_one_marker 2 initState).1,
   (C8_double_close_appends_one_marker 2 initState).2.2.1 0 (by decide)⟩

end Giri
